import Mathlib

/-!
Verification development for the YAS ESP32 Bluetooth bridge.

Shallow embedding of the codec (src/include/yas_commands.h), the
convergence controller (src/src/mqtt_client.cpp and src/src/main.cpp),
the status poller and diff publisher (src/src/main.cpp, loop), the
connection manager (src/src/bluetooth.cpp) and the HTTP authentication
check (src/src/http_handlers.cpp).

Wire data travels as hexadecimal ASCII strings (Arduino String); the
embedding keeps that representation: a frame is a Lean String of
lowercase hex digits, two characters per byte, exactly as in the source.
External effects (serial writes, MQTT publishes, delays, polls) are
modelled as explicit event lists; time (millis) and link results are
explicit parameters.  All functions are total, so the C++ "never throws"
behaviour is by construction.
-/

namespace Yas

/-! ## Hex helpers (modelling strtol base 16 and %02x formatting) -/

/-- Value of a single hexadecimal digit character (0 for non-digits). -/
def hexVal (c : Char) : Nat :=
  if '0' ≤ c ∧ c ≤ '9' then c.toNat - '0'.toNat
  else if 'a' ≤ c ∧ c ≤ 'f' then c.toNat - 'a'.toNat + 10
  else if 'A' ≤ c ∧ c ≤ 'F' then c.toNat - 'A'.toNat + 10
  else 0

/-- Whether a character is a hexadecimal digit. -/
def isHexDigit (c : Char) : Bool :=
  decide (('0' ≤ c ∧ c ≤ '9') ∨ ('a' ≤ c ∧ c ≤ 'f') ∨ ('A' ≤ c ∧ c ≤ 'F'))

/-- Accumulating hex parse of the longest hex-digit prefix, modelling
C strtol with base 16 on the short substrings the source feeds it
(which consist only of hex digits). -/
def strtolHexChars : List Char → Nat → Nat
  | [], acc => acc
  | c :: rest, acc =>
      if isHexDigit c then strtolHexChars rest (acc * 16 + hexVal c) else acc

/-- strtol(s.c_str(), NULL, 16) for the short hex substrings of the source. -/
def strtolHex (s : String) : Nat :=
  strtolHexChars s.toList 0

/-- Arduino String.substring(i, j): the characters with indices in [i, j). -/
def substr (s : String) (i j : Nat) : String :=
  ((s.toList.drop i).take (j - i)).asString

/-- Lowercase hexadecimal digit character for n < 16. -/
def hexDigitChar (n : Nat) : Char :=
  if n < 10 then Char.ofNat ('0'.toNat + n) else Char.ofNat ('a'.toNat + (n - 10))

/-- snprintf "%02x" of a byte value: two lowercase hex digits. -/
def hexByteStr (n : Nat) : String :=
  String.mk [hexDigitChar (n / 16 % 16), hexDigitChar (n % 16)]

/-! ## Command table (yas_commands.h) -/

/-- Command payloads (without framing), from yas_commands.h. -/
def COMMANDS : List (String × String) :=
  [("power_toggle", "4078cc"),
   ("power_on", "40787e"),
   ("power_off", "40787f"),
   ("set_input_hdmi", "40784a"),
   ("set_input_analog", "4078d1"),
   ("set_input_bluetooth", "407829"),
   ("set_input_tv", "4078df"),
   ("set_surround_3d", "4078c9"),
   ("set_surround_tv", "407ef1"),
   ("set_surround_stereo", "407850"),
   ("set_surround_movie", "4078d9"),
   ("set_surround_music", "4078da"),
   ("set_surround_sports", "4078db"),
   ("set_surround_game", "4078dc"),
   ("surround_toggle", "4078b4"),
   ("clearvoice_toggle", "40785c"),
   ("clearvoice_on", "407e80"),
   ("clearvoice_off", "407e82"),
   ("bass_ext_toggle", "40788b"),
   ("bass_ext_on", "40786e"),
   ("bass_ext_off", "40786f"),
   ("subwoofer_up", "40784c"),
   ("subwoofer_down", "40784d"),
   ("mute_toggle", "40789c"),
   ("mute_on", "407ea2"),
   ("mute_off", "407ea3"),
   ("volume_up", "40781e"),
   ("volume_down", "40781f"),
   ("bluetooth_standby_toggle", "407834"),
   ("dimmer", "4078ba"),
   ("report_status", "0305")]

/-- Input code to input name, from yas_commands.h. -/
def INPUT_NAMES : List (String × String) :=
  [("00", "hdmi"), ("0c", "analog"), ("05", "bluetooth"), ("07", "tv")]

/-- Surround code to surround name, from yas_commands.h. -/
def SURROUND_NAMES : List (String × String) :=
  [("000d", "3d"), ("000a", "tv"), ("0100", "stereo"), ("0003", "movie"),
   ("0008", "music"), ("0009", "sports"), ("000c", "game")]

/-- std::map find on a key list. -/
def mapFind (m : List (String × String)) (k : String) : Option String :=
  (m.find? (fun p => p.1 == k)).map (fun p => p.2)

/-- isValidCommand from yas_commands.h. -/
def isValidCommand (cmd : String) : Bool :=
  (mapFind COMMANDS cmd).isSome

/-! ## Codec (yas_commands.h) -/

/-- The byte values of a hex string read two characters at a time, exactly
as the checksum loop of encodeCommand does with strtol on substring(i, i+2). -/
def hexPairBytes : List Char → List Nat
  | [] => []
  | [c] => [strtolHexChars [c] 0]
  | c1 :: c2 :: rest => strtolHexChars [c1, c2] 0 :: hexPairBytes rest

/-- The C expression (-sum) & 0xFF on a nonnegative int sum:
the low byte of the two's complement negation. -/
def negChecksum (sum : Nat) : Nat :=
  ((-(sum : Int)) % 256).toNat

/-- encodeCommand from yas_commands.h: frame the payload of a known command
as "ccaa" ++ length byte ++ payload ++ checksum byte (hex ASCII);
unknown commands yield the empty string. -/
def encodeCommand (cmd : String) : String :=
  match COMMANDS.find? (fun p => p.1 == cmd) with
  | none => ""
  | some p =>
      let payload := p.2
      let payloadLen := payload.length / 2
      let sum := payloadLen + (hexPairBytes payload.toList).sum
      "ccaa" ++ hexByteStr payloadLen ++ payload ++ hexByteStr (negChecksum sum)

/-- hexStringToBytes from yas_commands.h: hex string to byte list,
capped at maxLen bytes. -/
def hexStringToBytes (hex : String) (maxLen : Nat) : List Nat :=
  (List.range (min (hex.length / 2) maxLen)).map
    (fun i => strtolHex (substr hex (2 * i) (2 * i + 2)))

/-- bytesToHexString from yas_commands.h: byte list to lowercase hex string. -/
def bytesToHexString (bytes : List Nat) : String :=
  String.join (bytes.map hexByteStr)

/-- YasStatus from yas_commands.h. -/
structure YasStatus where
  power : Bool
  input : String
  muted : Bool
  volume : Nat
  subwoofer : Nat
  surround : String
  bass_ext : Bool
  clear_voice : Bool
  valid : Bool
deriving DecidableEq, Repr

/-- The all-defaults record the decoder starts from and returns on failure. -/
def yasStatusDefault : YasStatus :=
  ⟨false, "unknown", false, 0, 0, "unknown", false, false, false⟩

/-- decodeStatus from yas_commands.h, on the hex ASCII string of the
response: 16-byte (32 hex character) minimum length, type byte at byte
offset 3 (hex characters 6..8) must equal "05", then fixed-offset field
extraction. -/
def decodeStatus (hex : String) : YasStatus :=
  if hex.length < 32 then yasStatusDefault
  else if substr hex 6 8 ≠ "05" then yasStatusDefault
  else
    { power := substr hex 10 12 == "01"
      input := (mapFind INPUT_NAMES (substr hex 12 14)).getD "unknown"
      muted := substr hex 14 16 == "01"
      volume := strtolHex (substr hex 16 18)
      subwoofer := strtolHex (substr hex 18 20)
      surround := (mapFind SURROUND_NAMES (substr hex 26 30)).getD "unknown"
      bass_ext := substr hex 30 31 == "2"
      clear_voice := substr hex 31 32 == "4"
      valid := true }

/-! ## Convergence controller (mqtt_client.cpp setVolume / setSubwoofer,
main.cpp setVolume) -/

/-- Observable events of a convergence run: a status poll (requestStatus),
a serial toggle command (sendCommand), a delay, a status publish. -/
inductive CmdEvent where
  | poll : CmdEvent
  | send : String → CmdEvent
  | wait : Nat → CmdEvent
  | publish : YasStatus → CmdEvent
deriving DecidableEq, Repr

/-- The toggle loop body repeated n times: sendCommand(cmd); delay(50). -/
def sendBurst (cmd : String) : Nat → List CmdEvent
  | 0 => []
  | n + 1 => CmdEvent.send cmd :: CmdEvent.wait 50 :: sendBurst cmd n

/-- The common tail of setVolume and setSubwoofer:
delay(100); requestStatus(); publish when the confirmation poll is valid. -/
def confirmTail (p2 : YasStatus) : List CmdEvent :=
  CmdEvent.wait 100 :: CmdEvent.poll ::
    (if p2.valid then [CmdEvent.publish p2] else [])

/-- setVolume from mqtt_client.cpp.  Inputs: the connected flag, the result
p1 of the initial poll, the result p2 of the confirmation poll, the target.
Returns the event trace and the new lastSoundbarStatus (when replaced).
The loop bound i < steps && i < 50 is min steps 50. -/
def setVolume (btConnected : Bool) (p1 p2 : YasStatus) (target : Int) :
    List CmdEvent × Option YasStatus :=
  if btConnected = false then ([], none)
  else if p1.valid = false then ([CmdEvent.poll], none)
  else
    let diff : Int := target - (p1.volume : Int)
    if diff = 0 then ([CmdEvent.poll], none)
    else
      let cmd := if diff > 0 then "volume_up" else "volume_down"
      (CmdEvent.poll :: (sendBurst cmd (min diff.natAbs 50) ++ confirmTail p2),
       if p2.valid then some p2 else none)

/-- setSubwoofer from mqtt_client.cpp: same shape as setVolume with
steps = abs(diff) / 4 and loop bound i < steps && i < 8. -/
def setSubwoofer (btConnected : Bool) (p1 p2 : YasStatus) (target : Int) :
    List CmdEvent × Option YasStatus :=
  if btConnected = false then ([], none)
  else if p1.valid = false then ([CmdEvent.poll], none)
  else
    let diff : Int := target - (p1.subwoofer : Int)
    if diff = 0 then ([CmdEvent.poll], none)
    else
      let cmd := if diff > 0 then "subwoofer_up" else "subwoofer_down"
      (CmdEvent.poll :: (sendBurst cmd (min (diff.natAbs / 4) 8) ++ confirmTail p2),
       if p2.valid then some p2 else none)

/-- setVolume from main.cpp (the monolithic variant): identical to the
mqtt_client.cpp version except that there is no early return when
diff == 0, so the confirmation poll always runs. -/
def setVolumeMain (btConnected : Bool) (p1 p2 : YasStatus) (target : Int) :
    List CmdEvent × Option YasStatus :=
  if btConnected = false then ([], none)
  else if p1.valid = false then ([CmdEvent.poll], none)
  else
    let diff : Int := target - (p1.volume : Int)
    let cmd := if diff > 0 then "volume_up" else "volume_down"
    (CmdEvent.poll :: (sendBurst cmd (min diff.natAbs 50) ++ confirmTail p2),
     if p2.valid then some p2 else none)

/-- Number of send events in a trace. -/
def countSend : List CmdEvent → Nat
  | [] => 0
  | CmdEvent.send _ :: rest => countSend rest + 1
  | _ :: rest => countSend rest

/-- Number of send events carrying a given command name. -/
def countSendOf (c : String) : List CmdEvent → Nat
  | [] => 0
  | CmdEvent.send d :: rest => (if d = c then 1 else 0) + countSendOf c rest
  | _ :: rest => countSendOf c rest

/-- Number of poll events in a trace. -/
def countPoll : List CmdEvent → Nat
  | [] => 0
  | CmdEvent.poll :: rest => countPoll rest + 1
  | _ :: rest => countPoll rest

/-- Number of publish events in a trace. -/
def countPublish : List CmdEvent → Nat
  | [] => 0
  | CmdEvent.publish _ :: rest => countPublish rest + 1
  | _ :: rest => countPublish rest

/-- Every send event is immediately followed by a wait of at least 50 ms. -/
def sendsSpaced : List CmdEvent → Bool
  | [] => true
  | CmdEvent.send _ :: CmdEvent.wait m :: rest =>
      decide (50 ≤ m) && sendsSpaced (CmdEvent.wait m :: rest)
  | CmdEvent.send _ :: _ => false
  | _ :: rest => sendsSpaced rest

/-! ## Status poller and diff publisher (main.cpp loop, poll branch) -/

/-- The field-by-field difference test of the poll branch in loop
(all eight data fields, as in the source). -/
def statusDiffers (a b : YasStatus) : Bool :=
  a.power != b.power || a.input != b.input || a.muted != b.muted ||
  a.volume != b.volume || a.subwoofer != b.subwoofer ||
  a.surround != b.surround || a.bass_ext != b.bass_ext ||
  a.clear_voice != b.clear_voice

/-- One poll tick of loop given the decoded record: on a valid decode that
differs from lastStatus, replace lastStatus and publish the full record;
otherwise change nothing and publish nothing. -/
def pollTick (lastStatus polled : YasStatus) : YasStatus × List CmdEvent :=
  if polled.valid = true then
    if statusDiffers polled lastStatus then (polled, [CmdEvent.publish polled])
    else (lastStatus, [])
  else (lastStatus, [])

/-! ## Connection manager (bluetooth.cpp) -/

/-- btStats from state.h. -/
structure BtStats where
  connectAttempts : Nat
  connectSuccesses : Nat
  connectFailures : Nat
  disconnects : Nat
  lastConnectDuration : Nat
  totalConnectedTime : Nat
  connectedSince : Nat
  bytesSent : Nat
  bytesReceived : Nat
  lastError : String
deriving DecidableEq, Repr

/-- The connection-manager state: the globals declared in state.h. -/
structure BtState where
  btConnected : Bool
  isPaired : Bool
  lastBtConnectAttempt : Nat
  reconnectHoldOffUntil : Nat
  lastBtStatus : String
  stats : BtStats
deriving DecidableEq, Repr

/-- Externally visible actions of the connection manager. -/
inductive BtAction where
  | persistPaired : Bool → BtAction
  | removeBond : BtAction
  | disconnect : BtAction
  | connectAddrAttempt : Nat → BtAction
  | connectName : BtAction
  | publishAvailable : String → BtAction
  | delayMs : Nat → BtAction
deriving DecidableEq, Repr

/-- Compile-time configuration from secrets.h (not in the snapshot):
whether SOUNDBAR_ADDRESS is non-empty and whether it sscanf-parses to six
bytes. -/
structure BtConfig where
  addrNonEmpty : Bool
  addrParses : Bool
deriving DecidableEq, Repr

/-- Link-layer environment of one connectBluetooth call: the result of
SerialBT.connected() at entry, hasClient(), the results of up to three
MAC connect attempts, the name connect result, millis() at entry, the
duration of the connect phase, and mqtt.connected(). -/
structure BtEnv where
  sppConnected : Bool
  hasClient : Bool
  macResult1 : Bool
  macResult2 : Bool
  macResult3 : Bool
  nameResult : Bool
  now : Nat
  connectDuration : Nat
  mqttConnected : Bool
deriving DecidableEq, Repr

/-- resetPairing from bluetooth.cpp: clear and persist isPaired, remove the
bond (when the address parses), disconnect when connected, set a 30 s
hold-off, set the status string (setBtStatus is modelled as the
lastBtStatus update it performs). -/
def resetPairing (now : Nat) (addrParses : Bool) (s : BtState) :
    BtState × List BtAction :=
  ({ s with
      isPaired := false
      btConnected := false
      reconnectHoldOffUntil := now + 30000
      lastBtStatus := "pairing_reset" },
   BtAction.persistPaired false ::
     ((if addrParses then [BtAction.removeBond] else []) ++
      (if s.btConnected then [BtAction.disconnect] else [])))

/-- connectBluetooth from bluetooth.cpp.  The attempt counter and the
last-attempt timestamp are updated first; when the link is already up the
function returns at once.  Otherwise: optional stale-client teardown, up
to three MAC attempts with 2 s delays between failures, name fallback,
then the success or failure bookkeeping. -/
def connectBluetooth (cfg : BtConfig) (env : BtEnv) (s : BtState) :
    BtState × List BtAction :=
  let s1 := { s with
      lastBtConnectAttempt := env.now
      stats := { s.stats with connectAttempts := s.stats.connectAttempts + 1 } }
  if env.sppConnected then ({ s1 with btConnected := true }, [])
  else
    let preActs :=
      if env.hasClient then [BtAction.disconnect, BtAction.delayMs 500] else []
    let s2 := { s1 with lastBtStatus := "connecting" }
    let useMac := cfg.addrNonEmpty && cfg.addrParses
    let macTried :=
      if useMac then
        if env.macResult1 then (true, [BtAction.connectAddrAttempt 1])
        else if env.macResult2 then
          (true, [BtAction.connectAddrAttempt 1, BtAction.delayMs 2000,
                  BtAction.connectAddrAttempt 2])
        else if env.macResult3 then
          (true, [BtAction.connectAddrAttempt 1, BtAction.delayMs 2000,
                  BtAction.connectAddrAttempt 2, BtAction.delayMs 2000,
                  BtAction.connectAddrAttempt 3])
        else
          (false, [BtAction.connectAddrAttempt 1, BtAction.delayMs 2000,
                   BtAction.connectAddrAttempt 2, BtAction.delayMs 2000,
                   BtAction.connectAddrAttempt 3])
      else (false, [])
    let connected := macTried.1 || env.nameResult
    let connActs :=
      if macTried.1 then macTried.2 else macTried.2 ++ [BtAction.connectName]
    let s3 := { s2 with
        stats := { s2.stats with lastConnectDuration := env.connectDuration } }
    if connected then
      ({ s3 with
          btConnected := true
          isPaired := true
          lastBtStatus := "connected"
          stats := { s3.stats with
              connectSuccesses := s3.stats.connectSuccesses + 1
              connectedSince := env.now + env.connectDuration } },
       preActs ++ connActs ++
         (if s.isPaired then [] else [BtAction.persistPaired true]) ++
         (if env.mqttConnected then [BtAction.publishAvailable "online"] else []))
    else
      ({ s3 with
          btConnected := false
          lastBtStatus := "connect_failed"
          stats := { s3.stats with
              connectFailures := s3.stats.connectFailures + 1 } },
       preActs ++ connActs ++
         (if env.mqttConnected then [BtAction.publishAvailable "offline"] else []))

/-- Modelled from the spec: the per-tick reconnect gate of the v2.2
scheduler loop.  state.h declares reconnectHoldOffUntil as defined in
main.cpp and bluetooth.cpp and http_handlers.cpp write it, but the v2.2
main.cpp that reads it in loop is not in the snapshot (the main.cpp
present is the older monolithic variant without hold-off).  Per the spec:
attempt a reconnect only if not connected, the hold-off has elapsed, and
more than the fixed 10 s backoff (BT_RECONNECT_DELAY_MS) has passed since
the last attempt. -/
def btReconnectDue (s : BtState) (now : Nat) : Bool :=
  !s.btConnected && decide (s.reconnectHoldOffUntil ≤ now) &&
    decide (10000 < now - s.lastBtConnectAttempt)

/-! ## HTTP authentication (http_handlers.cpp checkAuth) -/

/-- The parts of an HTTP request that checkAuth inspects. -/
structure HttpRequest where
  hasAuthHeader : Bool
  authHeader : String
  hasApiKeyArg : Bool
  apiKeyArg : String
deriving DecidableEq, Repr

/-- The Bearer stripping step of checkAuth: drop a leading "Bearer "
when present. -/
def stripBearer (a : String) : String :=
  if a.startsWith "Bearer " then (a.toList.drop 7).asString else a

/-- checkAuth from http_handlers.cpp.  First component: whether the handler
proceeds.  Second component: the status code sent by checkAuth itself
(some 401 exactly on rejection). -/
def checkAuth (apiKey : String) (req : HttpRequest) : Bool × Option Nat :=
  if apiKey.length = 0 then (true, none)
  else if req.hasAuthHeader && (stripBearer req.authHeader == apiKey) then
    (true, none)
  else if req.hasApiKeyArg && (req.apiKeyArg == apiKey) then (true, none)
  else (false, some 401)

/-! ## Concrete fixtures for witnesses and counterexamples -/

/-- A valid decoded record with volume 20 and subwoofer 8. -/
def stA : YasStatus := ⟨true, "hdmi", false, 20, 8, "movie", false, false, true⟩

/-- A valid decoded record with volume 10 and subwoofer 8. -/
def stB : YasStatus := ⟨true, "hdmi", false, 10, 8, "movie", false, false, true⟩

/-- A valid decoded record with volume 15 and subwoofer 12. -/
def stC : YasStatus := ⟨true, "hdmi", false, 15, 12, "movie", false, false, true⟩

/-- Zeroed connection statistics. -/
def zeroStats : BtStats := ⟨0, 0, 0, 0, 0, 0, 0, 0, 0, ""⟩

/-- A connection state that is already connected, with zero counters. -/
def sConnected : BtState := ⟨true, true, 0, 0, "connected", zeroStats⟩

/-- An environment in which SerialBT.connected() reports true at entry. -/
def envAlready : BtEnv := ⟨true, false, false, false, false, false, 5000, 0, false⟩

/-- A configuration with a usable soundbar address. -/
def cfgAddr : BtConfig := ⟨true, true⟩


/-! ## Helper lemmas -/

theorem countSend_poll_cons (l : List CmdEvent) :
    countSend (CmdEvent.poll :: l) = countSend l := rfl

theorem countSendOf_poll_cons (c : String) (l : List CmdEvent) :
    countSendOf c (CmdEvent.poll :: l) = countSendOf c l := rfl

theorem countPoll_poll_cons (l : List CmdEvent) :
    countPoll (CmdEvent.poll :: l) = countPoll l + 1 := rfl

theorem sendsSpaced_poll_cons (l : List CmdEvent) :
    sendsSpaced (CmdEvent.poll :: l) = sendsSpaced l := rfl

theorem countSend_append (l1 l2 : List CmdEvent) :
    countSend (l1 ++ l2) = countSend l1 + countSend l2 := by
  induction l1 with
  | nil => simp [countSend]
  | cons e rest ih => cases e <;> simp [countSend, ih, Nat.add_comm, Nat.add_assoc, Nat.add_left_comm]

theorem countSendOf_append (c : String) (l1 l2 : List CmdEvent) :
    countSendOf c (l1 ++ l2) = countSendOf c l1 + countSendOf c l2 := by
  induction l1 with
  | nil => simp [countSendOf]
  | cons e rest ih => cases e <;> simp [countSendOf, ih, Nat.add_comm, Nat.add_assoc, Nat.add_left_comm]

theorem countPoll_append (l1 l2 : List CmdEvent) :
    countPoll (l1 ++ l2) = countPoll l1 + countPoll l2 := by
  induction l1 with
  | nil => simp [countPoll]
  | cons e rest ih => cases e <;> simp [countPoll, ih, Nat.add_comm, Nat.add_assoc, Nat.add_left_comm]

theorem countSend_sendBurst (c : String) (n : Nat) :
    countSend (sendBurst c n) = n := by
  induction n with
  | zero => rfl
  | succ n ih => simp [sendBurst, countSend, ih]

theorem countSendOf_sendBurst (c : String) (n : Nat) :
    countSendOf c (sendBurst c n) = n := by
  induction n with
  | zero => rfl
  | succ n ih => simp [sendBurst, countSendOf, ih, Nat.add_comm]

theorem countPoll_sendBurst (c : String) (n : Nat) :
    countPoll (sendBurst c n) = 0 := by
  induction n with
  | zero => rfl
  | succ n ih => simp [sendBurst, countPoll, ih]

theorem countSend_confirmTail (p : YasStatus) :
    countSend (confirmTail p) = 0 := by
  cases h : p.valid <;> simp [confirmTail, h, countSend]

theorem countSendOf_confirmTail (c : String) (p : YasStatus) :
    countSendOf c (confirmTail p) = 0 := by
  cases h : p.valid <;> simp [confirmTail, h, countSendOf]

theorem countPoll_confirmTail (p : YasStatus) :
    countPoll (confirmTail p) = 1 := by
  cases h : p.valid <;> simp [confirmTail, h, countPoll]

theorem sendsSpaced_sendBurst_append (c : String) (n : Nat) (l : List CmdEvent)
    (h : sendsSpaced l = true) : sendsSpaced (sendBurst c n ++ l) = true := by
  induction n with
  | zero => simpa [sendBurst]
  | succ n ih => simpa [sendBurst, sendsSpaced] using ih

theorem sendsSpaced_confirmTail (p : YasStatus) :
    sendsSpaced (confirmTail p) = true := by
  cases h : p.valid <;> simp [confirmTail, h, sendsSpaced]

theorem statusDiffers_self (a : YasStatus) : statusDiffers a a = false := by
  simp [statusDiffers]

theorem stringLengthZero {s : String} (h : s.length = 0) : s = "" := by
  cases s with
  | mk data =>
    have hd : data = [] := List.length_eq_zero.mp h
    subst hd
    rfl

/-! ## Claim theorems -/

/-- C1: for every command in the Command Table the encoded frame is
magic (cc aa) || length || payload bytes || checksum with checksum equal
to the low byte of the negated sum, hence length + payload sum + checksum
is 0 mod 256. -/
theorem c1_encode_frame_checksum :
    ∀ p ∈ COMMANDS,
      hexStringToBytes (encodeCommand p.1) 32 =
        0xcc :: 0xaa :: (p.2.length / 2) ::
          (hexPairBytes p.2.toList ++
           [negChecksum (p.2.length / 2 + (hexPairBytes p.2.toList).sum)]) ∧
      (p.2.length / 2 + (hexPairBytes p.2.toList).sum +
        negChecksum (p.2.length / 2 + (hexPairBytes p.2.toList).sum)) % 256 = 0 := by
  decide

/-- C1 witness: the power_toggle frame. -/
theorem c1_encode_frame_checksum_witness :
    hexStringToBytes (encodeCommand ("power_toggle", "4078cc").1) 32 =
      0xcc :: 0xaa :: (("power_toggle", "4078cc").2.length / 2) ::
        (hexPairBytes ("power_toggle", "4078cc").2.toList ++
         [negChecksum (("power_toggle", "4078cc").2.length / 2 +
           (hexPairBytes ("power_toggle", "4078cc").2.toList).sum)]) ∧
    (("power_toggle", "4078cc").2.length / 2 +
      (hexPairBytes ("power_toggle", "4078cc").2.toList).sum +
      negChecksum (("power_toggle", "4078cc").2.length / 2 +
        (hexPairBytes ("power_toggle", "4078cc").2.toList).sum)) % 256 = 0 :=
  c1_encode_frame_checksum ("power_toggle", "4078cc") (by decide)

/-- C2: decodeStatus returns the all-defaults record (valid = false) on
every input whose hex string is shorter than 32 characters (16 bytes) or
whose type field (byte 3, hex characters 6..8) is not "05"; the embedding
is a total function, so no input throws. -/
theorem c2_decode_soft_fail (s : String)
    (h : s.length < 32 ∨ substr s 6 8 ≠ "05") :
    decodeStatus s = yasStatusDefault := by
  unfold decodeStatus
  rcases h with h | h
  · rw [if_pos h]
  · by_cases h32 : s.length < 32
    · rw [if_pos h32]
    · rw [if_neg h32, if_pos h]

/-- C2 witness: the empty input decodes to the default record. -/
theorem c2_decode_soft_fail_witness : decodeStatus "" = yasStatusDefault :=
  c2_decode_soft_fail "" (Or.inl (by decide))

/-- C3 counterexample: with current volume 20 and target 20, the
mqtt_client.cpp setVolume emits only the initial poll: zero toggle
commands but also no confirmation poll, contradicting the claim that the
confirmation poll still happens. -/
theorem c3_counterexample :
    (setVolume true stA stA 20).1 = [CmdEvent.poll] ∧
    countPoll (setVolume true stA stA 20).1 = 1 ∧
    countSend (setVolume true stA stA 20).1 = 0 := by
  decide

/-- C3 amended: when the polled volume equals the target, the
mqtt_client.cpp setVolume issues zero toggle commands and returns right
after the initial poll, skipping the confirmation poll; the main.cpp
variant issues zero toggle commands and still performs the confirmation
poll. -/
theorem c3_diff_zero (p1 p2 : YasStatus) (target : Int)
    (hv : p1.valid = true) (h0 : target = (p1.volume : Int)) :
    (setVolume true p1 p2 target).1 = [CmdEvent.poll] ∧
    (setVolume true p1 p2 target).2 = none ∧
    (setVolumeMain true p1 p2 target).1 = CmdEvent.poll :: confirmTail p2 ∧
    countSend (setVolumeMain true p1 p2 target).1 = 0 ∧
    countPoll (setVolumeMain true p1 p2 target).1 = 2 := by
  subst h0
  have h1 : setVolume true p1 p2 (p1.volume : Int) = ([CmdEvent.poll], none) := by
    simp [setVolume, hv]
  have h2 : (setVolumeMain true p1 p2 (p1.volume : Int)).1 =
      CmdEvent.poll :: confirmTail p2 := by
    simp [setVolumeMain, hv, sendBurst, Int.natAbs_zero, Nat.zero_min]
  refine ⟨by rw [h1], by rw [h1], h2, ?_, ?_⟩
  · rw [h2, countSend_poll_cons, countSend_confirmTail]
  · rw [h2, countPoll_poll_cons, countPoll_confirmTail]

/-- C3 witness at current volume 20, target 20. -/
theorem c3_diff_zero_witness :
    (setVolume true stA stC 20).1 = [CmdEvent.poll] ∧
    (setVolume true stA stC 20).2 = none ∧
    (setVolumeMain true stA stC 20).1 = CmdEvent.poll :: confirmTail stC ∧
    countSend (setVolumeMain true stA stC 20).1 = 0 ∧
    countPoll (setVolumeMain true stA stC 20).1 = 2 :=
  c3_diff_zero stA stC 20 rfl (by decide)

/-- C4: the per-tick reconnect gate fires only when not connected, the
hold-off has elapsed, and more than 10 s passed since the last attempt;
in particular it never fires while now is before hold-off, and after
resetPairing at time t the gate stays off until t + 30000. -/
theorem c4_reconnect_gating (s : BtState) (now t : Nat) (ap : Bool) :
    (btReconnectDue s now = true ↔
      (s.btConnected = false ∧ s.reconnectHoldOffUntil ≤ now ∧
       10000 < now - s.lastBtConnectAttempt)) ∧
    (now < s.reconnectHoldOffUntil → btReconnectDue s now = false) ∧
    ((resetPairing t ap s).1.reconnectHoldOffUntil = t + 30000) ∧
    (now < t + 30000 → btReconnectDue (resetPairing t ap s).1 now = false) := by
  refine ⟨?_, ?_, rfl, ?_⟩
  · simp [btReconnectDue, Bool.and_eq_true, Bool.not_eq_true', decide_eq_true_eq]
    tauto
  · intro h
    have hno : ¬ (s.reconnectHoldOffUntil ≤ now) := Nat.not_le.mpr h
    simp [btReconnectDue, hno]
  · intro h
    have hno : ¬ (t + 30000 ≤ now) := Nat.not_le.mpr h
    simp [btReconnectDue, resetPairing, hno]

/-- C4 witness: hold-off 30000, now 20000, last attempt at 0 (backoff
elapsed), yet no reconnect attempt. -/
theorem c4_reconnect_gating_witness :
    btReconnectDue (BtState.mk false true 0 30000 "pairing_reset" zeroStats)
      20000 = false :=
  (c4_reconnect_gating (BtState.mk false true 0 30000 "pairing_reset" zeroStats)
      20000 0 false).2.1 (by decide)

/-- C5: for a target differing from the polled volume, setVolume sends
exactly min |target - volume| 50 toggle commands, all of them volume_up
when target > volume and volume_down otherwise, each immediately followed
by a delay of at least 50 ms, with exactly one confirmation poll after
the initial poll. -/
theorem c5_volume_steps (p1 p2 : YasStatus) (target : Int)
    (hv : p1.valid = true) (hne : target ≠ (p1.volume : Int)) :
    countSend (setVolume true p1 p2 target).1 =
      min (target - (p1.volume : Int)).natAbs 50 ∧
    countSendOf (if target - (p1.volume : Int) > 0 then "volume_up" else "volume_down")
        (setVolume true p1 p2 target).1 =
      min (target - (p1.volume : Int)).natAbs 50 ∧
    sendsSpaced (setVolume true p1 p2 target).1 = true ∧
    countPoll (setVolume true p1 p2 target).1 = 2 := by
  have hd : target - (p1.volume : Int) ≠ 0 := sub_ne_zero.mpr hne
  by_cases hpos : target - (p1.volume : Int) > 0
  · have htrace : (setVolume true p1 p2 target).1 =
        CmdEvent.poll ::
          (sendBurst "volume_up" (min (target - (p1.volume : Int)).natAbs 50) ++
           confirmTail p2) := by
      simp [setVolume, hv, hd, hpos]
    rw [if_pos hpos]
    refine ⟨?_, ?_, ?_, ?_⟩ <;> rw [htrace]
    · rw [countSend_poll_cons, countSend_append, countSend_sendBurst,
        countSend_confirmTail, Nat.add_zero]
    · rw [countSendOf_poll_cons, countSendOf_append, countSendOf_sendBurst,
        countSendOf_confirmTail, Nat.add_zero]
    · rw [sendsSpaced_poll_cons]
      exact sendsSpaced_sendBurst_append _ _ _ (sendsSpaced_confirmTail p2)
    · rw [countPoll_poll_cons, countPoll_append, countPoll_sendBurst,
        countPoll_confirmTail]
  · have htrace : (setVolume true p1 p2 target).1 =
        CmdEvent.poll ::
          (sendBurst "volume_down" (min (target - (p1.volume : Int)).natAbs 50) ++
           confirmTail p2) := by
      simp [setVolume, hv, hd, hpos]
    rw [if_neg hpos]
    refine ⟨?_, ?_, ?_, ?_⟩ <;> rw [htrace]
    · rw [countSend_poll_cons, countSend_append, countSend_sendBurst,
        countSend_confirmTail, Nat.add_zero]
    · rw [countSendOf_poll_cons, countSendOf_append, countSendOf_sendBurst,
        countSendOf_confirmTail, Nat.add_zero]
    · rw [sendsSpaced_poll_cons]
      exact sendsSpaced_sendBurst_append _ _ _ (sendsSpaced_confirmTail p2)
    · rw [countPoll_poll_cons, countPoll_append, countPoll_sendBurst,
        countPoll_confirmTail]

/-- C5 witness: current volume 10, target 15, and concretely 5 sends. -/
theorem c5_volume_steps_witness :
    (countSend (setVolume true stB stC 15).1 =
      min ((15 : Int) - (stB.volume : Int)).natAbs 50 ∧
    countSendOf (if (15 : Int) - (stB.volume : Int) > 0 then "volume_up" else "volume_down")
        (setVolume true stB stC 15).1 =
      min ((15 : Int) - (stB.volume : Int)).natAbs 50 ∧
    sendsSpaced (setVolume true stB stC 15).1 = true ∧
    countPoll (setVolume true stB stC 15).1 = 2) ∧
    countSend (setVolume true stB stC 15).1 = 5 ∧
    countSendOf "volume_up" (setVolume true stB stC 15).1 = 5 :=
  ⟨c5_volume_steps stB stC 15 rfl (by decide), by decide, by decide⟩

/-- C6: for a target differing from the polled subwoofer value,
setSubwoofer sends exactly min (|target - subwoofer| / 4) 8 toggle
commands (integer division truncates), all subwoofer_up when target is
above and subwoofer_down otherwise, spaced by at least 50 ms, with one
confirmation poll; the sent steps never overshoot: steps * 4 is at most
the distance. -/
theorem c6_subwoofer_steps (p1 p2 : YasStatus) (target : Int)
    (hv : p1.valid = true) (hne : target ≠ (p1.subwoofer : Int)) :
    countSend (setSubwoofer true p1 p2 target).1 =
      min ((target - (p1.subwoofer : Int)).natAbs / 4) 8 ∧
    countSendOf (if target - (p1.subwoofer : Int) > 0 then "subwoofer_up" else "subwoofer_down")
        (setSubwoofer true p1 p2 target).1 =
      min ((target - (p1.subwoofer : Int)).natAbs / 4) 8 ∧
    sendsSpaced (setSubwoofer true p1 p2 target).1 = true ∧
    countPoll (setSubwoofer true p1 p2 target).1 = 2 ∧
    min ((target - (p1.subwoofer : Int)).natAbs / 4) 8 * 4 ≤
      (target - (p1.subwoofer : Int)).natAbs := by
  have hd : target - (p1.subwoofer : Int) ≠ 0 := sub_ne_zero.mpr hne
  have hcap : min ((target - (p1.subwoofer : Int)).natAbs / 4) 8 * 4 ≤
      (target - (p1.subwoofer : Int)).natAbs :=
    le_trans (Nat.mul_le_mul_right _ (min_le_left _ _)) (Nat.div_mul_le_self _ _)
  by_cases hpos : target - (p1.subwoofer : Int) > 0
  · have htrace : (setSubwoofer true p1 p2 target).1 =
        CmdEvent.poll ::
          (sendBurst "subwoofer_up"
            (min ((target - (p1.subwoofer : Int)).natAbs / 4) 8) ++
           confirmTail p2) := by
      simp [setSubwoofer, hv, hd, hpos]
    rw [if_pos hpos]
    refine ⟨?_, ?_, ?_, ?_, hcap⟩ <;> rw [htrace]
    · rw [countSend_poll_cons, countSend_append, countSend_sendBurst,
        countSend_confirmTail, Nat.add_zero]
    · rw [countSendOf_poll_cons, countSendOf_append, countSendOf_sendBurst,
        countSendOf_confirmTail, Nat.add_zero]
    · rw [sendsSpaced_poll_cons]
      exact sendsSpaced_sendBurst_append _ _ _ (sendsSpaced_confirmTail p2)
    · rw [countPoll_poll_cons, countPoll_append, countPoll_sendBurst,
        countPoll_confirmTail]
  · have htrace : (setSubwoofer true p1 p2 target).1 =
        CmdEvent.poll ::
          (sendBurst "subwoofer_down"
            (min ((target - (p1.subwoofer : Int)).natAbs / 4) 8) ++
           confirmTail p2) := by
      simp [setSubwoofer, hv, hd, hpos]
    rw [if_neg hpos]
    refine ⟨?_, ?_, ?_, ?_, hcap⟩ <;> rw [htrace]
    · rw [countSend_poll_cons, countSend_append, countSend_sendBurst,
        countSend_confirmTail, Nat.add_zero]
    · rw [countSendOf_poll_cons, countSendOf_append, countSendOf_sendBurst,
        countSendOf_confirmTail, Nat.add_zero]
    · rw [sendsSpaced_poll_cons]
      exact sendsSpaced_sendBurst_append _ _ _ (sendsSpaced_confirmTail p2)
    · rw [countPoll_poll_cons, countPoll_append, countPoll_sendBurst,
        countPoll_confirmTail]

/-- C6 witness: current subwoofer 8, target 13, and concretely exactly
one subwoofer_up command. -/
theorem c6_subwoofer_steps_witness :
    (countSend (setSubwoofer true stB stC 13).1 =
      min (((13 : Int) - (stB.subwoofer : Int)).natAbs / 4) 8 ∧
    countSendOf (if (13 : Int) - (stB.subwoofer : Int) > 0 then "subwoofer_up" else "subwoofer_down")
        (setSubwoofer true stB stC 13).1 =
      min (((13 : Int) - (stB.subwoofer : Int)).natAbs / 4) 8 ∧
    sendsSpaced (setSubwoofer true stB stC 13).1 = true ∧
    countPoll (setSubwoofer true stB stC 13).1 = 2 ∧
    min (((13 : Int) - (stB.subwoofer : Int)).natAbs / 4) 8 * 4 ≤
      ((13 : Int) - (stB.subwoofer : Int)).natAbs) ∧
    countSend (setSubwoofer true stB stC 13).1 = 1 ∧
    countSendOf "subwoofer_up" (setSubwoofer true stB stC 13).1 = 1 :=
  ⟨c6_subwoofer_steps stB stC 13 rfl (by decide), by decide, by decide⟩

/-- C7: on a valid poll the record is published exactly when some field
differs from the last known status, the last known status is replaced
exactly in that case, and a second poll returning the identical record
publishes nothing, so two identical polls yield at most one publish. -/
theorem c7_poll_diff (last s : YasStatus) (hv : s.valid = true) :
    ((pollTick last s).2 =
      if statusDiffers s last then [CmdEvent.publish s] else []) ∧
    ((pollTick last s).1 = if statusDiffers s last then s else last) ∧
    (pollTick (pollTick last s).1 s).2 = [] ∧
    countPublish ((pollTick last s).2 ++ (pollTick (pollTick last s).1 s).2) =
      (if statusDiffers s last then 1 else 0) := by
  cases h : statusDiffers s last <;>
    simp [pollTick, hv, h, statusDiffers_self, countPublish]

/-- C7 witness: a fresh record against the default last known status is
published once and a repeat poll of the same record is suppressed. -/
theorem c7_poll_diff_witness :
    ((pollTick yasStatusDefault stA).2 =
      if statusDiffers stA yasStatusDefault then [CmdEvent.publish stA] else []) ∧
    ((pollTick yasStatusDefault stA).1 =
      if statusDiffers stA yasStatusDefault then stA else yasStatusDefault) ∧
    (pollTick (pollTick yasStatusDefault stA).1 stA).2 = [] ∧
    countPublish ((pollTick yasStatusDefault stA).2 ++
        (pollTick (pollTick yasStatusDefault stA).1 stA).2) =
      (if statusDiffers stA yasStatusDefault then 1 else 0) :=
  c7_poll_diff yasStatusDefault stA rfl

/-- C8: no encoded command frame decodes as a valid status frame, and
encoding is deterministic. -/
theorem c8_commands_not_status :
    ∀ p ∈ COMMANDS,
      (decodeStatus (encodeCommand p.1)).valid = false ∧
      encodeCommand p.1 = encodeCommand p.1 := by
  decide

/-- C8 witness: the report_status command frame itself is not a status
frame. -/
theorem c8_commands_not_status_witness :
    (decodeStatus (encodeCommand ("report_status", "0305").1)).valid = false ∧
    encodeCommand ("report_status", "0305").1 =
      encodeCommand ("report_status", "0305").1 :=
  c8_commands_not_status ("report_status", "0305") (by decide)

/-- C9 counterexample: with the link already connected, connectBluetooth
still increments the attempt counter and rewrites the last-attempt
timestamp, so the Connection State is not left unchanged. -/
theorem c9_counterexample :
    envAlready.sppConnected = true ∧
    sConnected.btConnected = true ∧
    (connectBluetooth cfgAddr envAlready sConnected).1.stats.connectAttempts ≠
      sConnected.stats.connectAttempts ∧
    (connectBluetooth cfgAddr envAlready sConnected).1.lastBtConnectAttempt ≠
      sConnected.lastBtConnectAttempt := by
  decide

/-- C9 amended: with the link already connected, connectBluetooth emits
no action at all (no connect attempt, no persistence, no publish) and
returns after recording the attempt: the attempt counter is incremented,
the last-attempt timestamp is set to now, btConnected is set true, and
every other field is unchanged. -/
theorem c9_already_connected (cfg : BtConfig) (env : BtEnv) (s : BtState)
    (h : env.sppConnected = true) :
    connectBluetooth cfg env s =
      ({ s with
          btConnected := true
          lastBtConnectAttempt := env.now
          stats := { s.stats with
              connectAttempts := s.stats.connectAttempts + 1 } }, []) := by
  simp [connectBluetooth, h]

/-- C9 witness at the concrete connected fixture. -/
theorem c9_already_connected_witness :
    connectBluetooth cfgAddr envAlready sConnected =
      ({ sConnected with
          btConnected := true
          lastBtConnectAttempt := envAlready.now
          stats := { sConnected.stats with
              connectAttempts := sConnected.stats.connectAttempts + 1 } }, []) :=
  c9_already_connected cfgAddr envAlready sConnected rfl

/-- C10: with an empty API key every request passes; with a non-empty key
a request passes exactly when the Authorization header (with an optional
Bearer marker stripped) or the api_key argument equals the key, and
checkAuth sends 401 exactly when it blocks. -/
theorem c10_checkAuth (key : String) (req : HttpRequest) :
    (key = "" → checkAuth key req = (true, none)) ∧
    (key ≠ "" →
      ((checkAuth key req).1 = true ↔
        ((req.hasAuthHeader = true ∧ stripBearer req.authHeader = key) ∨
         (req.hasApiKeyArg = true ∧ req.apiKeyArg = key)))) ∧
    ((checkAuth key req).2 =
      if (checkAuth key req).1 = true then none else some 401) := by
  refine ⟨?_, ?_, ?_⟩
  · intro h
    subst h
    rfl
  · intro h
    have hk : ¬ (key.length = 0) := fun hl => h (stringLengthZero hl)
    cases hh : req.hasAuthHeader <;> cases ha : req.hasApiKeyArg <;>
      by_cases e1 : stripBearer req.authHeader = key <;>
      by_cases e2 : req.apiKeyArg = key <;>
      simp [checkAuth, hk, hh, ha, e1, e2]
  · by_cases hk : key.length = 0 <;>
      by_cases h1 : req.hasAuthHeader && (stripBearer req.authHeader == key) <;>
      by_cases h2 : req.hasApiKeyArg && (req.apiKeyArg == key) <;>
      simp [checkAuth, hk, h1, h2]

/-- C10 witness: a Bearer header carrying the key authorizes the request. -/
theorem c10_checkAuth_witness :
    (checkAuth "secret" (HttpRequest.mk true "Bearer secret" false "")).1 = true ↔
      (((HttpRequest.mk true "Bearer secret" false "").hasAuthHeader = true ∧
        stripBearer (HttpRequest.mk true "Bearer secret" false "").authHeader = "secret") ∨
       ((HttpRequest.mk true "Bearer secret" false "").hasApiKeyArg = true ∧
        (HttpRequest.mk true "Bearer secret" false "").apiKeyArg = "secret")) :=
  (c10_checkAuth "secret" (HttpRequest.mk true "Bearer secret" false "")).2.1
    (by decide)

end Yas
